import Mathlib

/-!
Model of the quad-krkn-stream-client repository.

* `dist/client.js` — `CWStreamClient`: session configuration merged from the
  module-level `defaultOptions`, the connection lifecycle state machine,
  the reconnect/backoff logic, auth-result handling and message dispatch.
* `src/public/channel.js` — `Channel`: subscription multiplexing (dedup,
  batching by 100, full replay on a fresh socket).

Times (the `reconnectTimeout` fields) are modelled as rationals, JS numbers
being exact on the small values involved.  Subscription keys and channel
options are opaque values in the JS code (Map keys / spread objects), so the
channel is parametrised over their types.
-/

namespace QuadKrkn

/-- The connection states of `STATE` in dist/client.js. -/
inductive STATE where
  | AUTHENTICATING
  | CONNECTED
  | CONNECTING
  | DISCONNECTED
  | WAITING_TO_CONNECT
  | WAITING_TO_RECONNECT
  deriving DecidableEq

/-- The error names of `ERROR` in dist/client.js. -/
inductive ERROR where
  | BAD_NONCE
  | BAD_TOKEN
  | CONNECTION_REFUSED
  | MISSING_API_KEY
  | MISSING_SECRET_KEY
  | PROTOBUF
  | TOKEN_EXPIRED
  | UNKNOWN
  deriving DecidableEq

/-- Session configuration: the fields of the module-level `defaultOptions`
object in dist/client.js (lines 45-66). -/
structure SessionOpts where
  url : String
  apiKey : String
  secretKey : String
  subscriptions : List String
  reconnect : Bool
  backoff : Bool
  reconnectTimeout : ℚ
  maxReconnectTimeout : ℚ
  verbose : Bool
  deriving DecidableEq

/-- The initial value of the module-level `defaultOptions` object. -/
def defaultOptions : SessionOpts :=
  { url := "wss://sb.cryptowat.ch"
    apiKey := ""
    secretKey := ""
    subscriptions := []
    reconnect := true
    backoff := true
    reconnectTimeout := 1
    maxReconnectTimeout := 30
    verbose := false }

/-- Constructor options: the `opts` object passed to the `CWStreamClient`
constructor.  Each field is optional; `Object.assign(defaultOptions, opts)`
overwrites exactly the fields that are present. -/
structure CtorOpts where
  url : Option String
  apiKey : Option String
  secretKey : Option String
  subscriptions : Option (List String)
  reconnect : Option Bool
  backoff : Option Bool
  reconnectTimeout : Option ℚ
  maxReconnectTimeout : Option ℚ
  verbose : Option Bool
  deriving DecidableEq

/-- The two environment variables read by the constructor. -/
structure Env where
  CW_API_KEY : Option String
  CW_SECRET_KEY : Option String
  deriving DecidableEq

/-- JS truthiness of an (optional) environment string: unset and the empty
string are falsy. -/
def truthy : Option String → Bool
  | none => false
  | some s => decide (s ≠ "")

/-- `Object.assign(defaults, opts)`: every field present in `opts`
overwrites the corresponding field of the (shared, mutable) defaults. -/
def mergeOpts (d : SessionOpts) (o : CtorOpts) : SessionOpts :=
  { url := o.url.getD d.url
    apiKey := o.apiKey.getD d.apiKey
    secretKey := o.secretKey.getD d.secretKey
    subscriptions := o.subscriptions.getD d.subscriptions
    reconnect := o.reconnect.getD d.reconnect
    backoff := o.backoff.getD d.backoff
    reconnectTimeout := o.reconnectTimeout.getD d.reconnectTimeout
    maxReconnectTimeout := o.maxReconnectTimeout.getD d.maxReconnectTimeout
    verbose := o.verbose.getD d.verbose }

/-- Outcome of the constructor: either the session configuration, or the
thrown configuration error. -/
inductive CtorResult where
  | ok (s : SessionOpts)
  | threw (e : ERROR)
  deriving DecidableEq

/-- The `CWStreamClient` constructor (dist/client.js lines 71-85) as a
function of the current module-level defaults, the environment and the
constructor options.  It returns the *new* value of the module-level
defaults (mutated by the env reads and aliased by `Object.assign`, whose
return value is the target object itself) together with either the session
configuration or the thrown configuration error. -/
def construct (defaults : SessionOpts) (env : Env) (opts : CtorOpts) :
    SessionOpts × CtorResult :=
  let d1 := if truthy env.CW_API_KEY then
      { defaults with apiKey := env.CW_API_KEY.getD defaults.apiKey }
    else defaults
  let d2 := if truthy env.CW_SECRET_KEY then
      { d1 with secretKey := env.CW_SECRET_KEY.getD d1.secretKey }
    else d1
  let session := mergeOpts d2 opts
  (session,
    if session.apiKey.length = 0 then CtorResult.threw ERROR.MISSING_API_KEY
    else if session.secretKey.length = 0 then CtorResult.threw ERROR.MISSING_SECRET_KEY
    else CtorResult.ok session)

/-- The body of the `setTimeout` callback in `reconnect` (dist/client.js
lines 168-176): when backoff is enabled, clamp the current delay to at
least 1, double it, and clamp it to `maxReconnectTimeout`; when backoff is
disabled, leave the session untouched. -/
def backoffStep (s : SessionOpts) : SessionOpts :=
  if s.backoff then
    let t1 := if s.reconnectTimeout < 1 then (1 : ℚ) else s.reconnectTimeout
    let t2 := t1 * 2
    let t3 := if t2 > s.maxReconnectTimeout then s.maxReconnectTimeout else t2
    { s with reconnectTimeout := t3 }
  else s

/-- A session with valid credentials, backoff enabled, base delay 1 and max
delay 30 (the defaults), used for the concrete runs. -/
def sessionExample : SessionOpts :=
  { url := "wss://sb.cryptowat.ch"
    apiKey := "key"
    secretKey := "secret"
    subscriptions := []
    reconnect := true
    backoff := true
    reconnectTimeout := 1
    maxReconnectTimeout := 30
    verbose := false }

/-- Iterating the backoff step from `sessionExample` (base 1, max 30).
`delays n` below is the delay used by the `n`-th reconnect wait: the wait
is scheduled with the current `reconnectTimeout`, and the doubling happens
inside the timer callback, before the next `connect`. -/
def baseRun : ℕ → SessionOpts
  | 0 => sessionExample
  | n + 1 => backoffStep (baseRun n)

/-- The delay used by the `n`-th reconnect wait in a run with base 1, max 30
and backoff enabled. -/
def delays (n : ℕ) : ℚ := (baseRun n).reconnectTimeout

theorem backoffStep_reconnectTimeout (s : SessionOpts) :
    (backoffStep s).reconnectTimeout =
      if s.backoff then min (max s.reconnectTimeout 1 * 2) s.maxReconnectTimeout
      else s.reconnectTimeout := by
  by_cases hb : s.backoff
  · simp only [backoffStep, hb, if_true]
    rw [min_def, max_def]
    split_ifs <;> first | rfl | linarith
  · simp [backoffStep, hb]

theorem backoffStep_backoff (s : SessionOpts) :
    (backoffStep s).backoff = s.backoff := by
  unfold backoffStep
  split_ifs <;> rfl

theorem backoffStep_max (s : SessionOpts) :
    (backoffStep s).maxReconnectTimeout = s.maxReconnectTimeout := by
  unfold backoffStep
  split_ifs <;> rfl

theorem baseRun_fields (n : ℕ) :
    (baseRun n).backoff = true ∧ (baseRun n).maxReconnectTimeout = 30 := by
  induction n with
  | zero => exact ⟨rfl, rfl⟩
  | succ n ih =>
    refine ⟨?_, ?_⟩
    · rw [baseRun, backoffStep_backoff]; exact ih.1
    · rw [baseRun, backoffStep_max]; exact ih.2

theorem delays_zero : delays 0 = 1 := rfl

theorem delays_succ (n : ℕ) : delays (n + 1) = min (max (delays n) 1 * 2) 30 := by
  have h := baseRun_fields n
  show (backoffStep (baseRun n)).reconnectTimeout = _
  rw [backoffStep_reconnectTimeout, h.1, h.2, if_pos rfl]
  rfl

theorem delays_le_max (n : ℕ) : delays n ≤ 30 := by
  cases n with
  | zero => rw [delays_zero]; norm_num
  | succ n => rw [delays_succ]; exact min_le_right _ _

/-- Claim C1: with backoff enabled each reconnect cycle maps the current
delay `d` (max `m`) to `min (max d 1 * 2) m`, with backoff disabled the
delay is unchanged; and the run with base 1 and max 30 uses the delays
1, 2, 4, 8, 16, 30, 30, ... never exceeding 30. -/
theorem C1_backoff_policy :
    (∀ s : SessionOpts, (backoffStep s).reconnectTimeout =
        if s.backoff then min (max s.reconnectTimeout 1 * 2) s.maxReconnectTimeout
        else s.reconnectTimeout)
    ∧ (delays 0 = 1 ∧ delays 1 = 2 ∧ delays 2 = 4 ∧ delays 3 = 8
        ∧ delays 4 = 16 ∧ delays 5 = 30 ∧ delays 6 = 30)
    ∧ (∀ n, delays n ≤ 30) := by
  have e0 : delays 0 = 1 := delays_zero
  have e1 : delays 1 = 2 := by rw [delays_succ, e0]; norm_num
  have e2 : delays 2 = 4 := by rw [delays_succ, e1]; norm_num
  have e3 : delays 3 = 8 := by rw [delays_succ, e2]; norm_num
  have e4 : delays 4 = 16 := by rw [delays_succ, e3]; norm_num
  have e5 : delays 5 = 30 := by rw [delays_succ, e4]; norm_num
  have e6 : delays 6 = 30 := by rw [delays_succ, e5]; norm_num
  exact ⟨backoffStep_reconnectTimeout, ⟨e0, e1, e2, e3, e4, e5, e6⟩, delays_le_max⟩

/-- Constructor options carrying an api key and a secret key. -/
def optsA : CtorOpts :=
  { url := none
    apiKey := some ("A")
    secretKey := some ("S")
    subscriptions := none
    reconnect := none
    backoff := none
    reconnectTimeout := none
    maxReconnectTimeout := none
    verbose := none }

/-- Constructor options carrying only a secret key (no api key). -/
def optsB : CtorOpts :=
  { url := none
    apiKey := none
    secretKey := some ("S2")
    subscriptions := none
    reconnect := none
    backoff := none
    reconnectTimeout := none
    maxReconnectTimeout := none
    verbose := none }

/-- An empty environment (neither credential variable set). -/
def envEmpty : Env := { CW_API_KEY := none, CW_SECRET_KEY := none }

/-- The module-level defaults after a first client was constructed with
`optsA`: `Object.assign` mutated them in place. -/
def defaultsAfterA : SessionOpts := (construct defaultOptions envEmpty optsA).1

/-- Claim C10: construction is not a pure function of its explicit inputs.
With an empty environment, constructing with `optsB` (which omits the api
key) on the pristine module defaults throws the missing-api-key error, but
after a prior construction with `optsA` the very same call succeeds and the
resulting session inherits `optsA`'s api key from the mutated shared
defaults. -/
theorem C10_shared_defaults :
    defaultOptions.apiKey.length = 0
    ∧ (construct defaultOptions envEmpty optsB).2 = CtorResult.threw ERROR.MISSING_API_KEY
    ∧ defaultsAfterA.apiKey = ("A" : String)
    ∧ (construct defaultsAfterA envEmpty optsB).1.apiKey = ("A" : String)
    ∧ (construct defaultsAfterA envEmpty optsB).2 =
        CtorResult.ok (construct defaultsAfterA envEmpty optsB).1 := by
  exact ⟨rfl, rfl, rfl, rfl, rfl⟩

/-! ## The connection lifecycle state machine (dist/client.js) -/

/-- Observable notifications.  Emitting a state both sets `currentState` and
emits `EVENT.STATE_CHANGE` (the internal listeners registered in the
constructor); emitting an error emits `EVENT.CLIENT_ERROR`. -/
inductive Emit where
  | stateChange (s : STATE)
  | clientError (e : ERROR)
  | marketUpdate
  | pairUpdate
  deriving DecidableEq

/-- A decoded authentication-result status.  The five named constructors are
the enum values the `switch` in `authResultHandler` compares against;
`unrecognized n` stands for any other wire value of the protobuf enum
(protobuf retains unknown enum numbers). -/
inductive AuthStatus where
  | AUTHENTICATED
  | TOKEN_EXPIRED
  | BAD_NONCE
  | BAD_TOKEN
  | UNKNOWN
  | unrecognized (n : ℕ)
  deriving DecidableEq

/-- The mutable state of a `CWStreamClient`.  `pending` is the queue of
reconnect timers scheduled by `setTimeout` in `reconnect`, each recorded
with the delay it was scheduled with; the code never cancels a timer.
`emitted` logs every notification in order. -/
structure Client where
  session : SessionOpts
  currentState : STATE
  reconnectDisabled : Bool
  pending : List ℚ
  emitted : List Emit
  deriving DecidableEq

/-- `this.emit(STATE.X)`: the internal state listener sets `currentState`
and re-emits the state change. -/
def emitStateM (c : Client) (s : STATE) : Client :=
  { c with currentState := s, emitted := c.emitted ++ [Emit.stateChange s] }

/-- `this.emit(ERROR.X)`: the internal error listener re-emits the error. -/
def emitErrorM (c : Client) (e : ERROR) : Client :=
  { c with emitted := c.emitted ++ [Emit.clientError e] }

/-- `connect()` (dist/client.js lines 104-125): clear the reconnect-disabled
flag, emit CONNECTING, open a fresh transport (whose open/message/close/error
events arrive later as inputs). -/
def connect (c : Client) : Client :=
  emitStateM { c with reconnectDisabled := false } STATE.CONNECTING

/-- `disconnect()` (dist/client.js lines 152-155): set the
reconnect-disabled flag and close the transport (the close event itself
arrives later as an input). -/
def disconnect (c : Client) : Client :=
  { c with reconnectDisabled := true }

/-- `reconnect()` (dist/client.js lines 166-180): schedule a timer with the
*current* `reconnectTimeout` (the backoff mutation happens inside the timer
callback), then emit WAITING_TO_RECONNECT. -/
def Client.reconnect (c : Client) : Client :=
  emitStateM { c with pending := c.pending ++ [c.session.reconnectTimeout] }
    STATE.WAITING_TO_RECONNECT

/-- `authenticate()` (dist/client.js lines 181-200): emit AUTHENTICATING and
send the auth request (the outbound send is not tracked here). -/
def authenticate (c : Client) : Client :=
  emitStateM c STATE.AUTHENTICATING

/-- The transport `open` handler: run the handshake. -/
def onOpen (c : Client) : Client :=
  authenticate c

/-- The transport `close` handler (dist/client.js lines 112-117): emit
DISCONNECTED and reconnect only if enabled and not explicitly disabled. -/
def onClose (c : Client) : Client :=
  let c := emitStateM c STATE.DISCONNECTED
  if c.session.reconnect && !c.reconnectDisabled then c.reconnect else c

/-- The transport `error` handler (dist/client.js lines 118-124): emit the
connection-refused error and DISCONNECTED, then reconnect if the session
option is set — the `reconnectDisabled` flag is *not* consulted here. -/
def onError (c : Client) : Client :=
  let c := emitErrorM c ERROR.CONNECTION_REFUSED
  let c := emitStateM c STATE.DISCONNECTED
  if c.session.reconnect then c.reconnect else c

/-- A scheduled reconnect timer fires: apply the backoff mutation to the
session, then `connect()`.  Nothing in the callback checks
`reconnectDisabled`. -/
def timerFire (c : Client) : Client :=
  match c.pending with
  | [] => c
  | _ :: rest => connect { c with pending := rest, session := backoffStep c.session }

/-- `authResultHandler` (dist/client.js lines 238-262): dispatch on the
decoded status; note the silent `default: break` branch. -/
def authResultHandler (c : Client) (status : AuthStatus) : Client :=
  match status with
  | AuthStatus.AUTHENTICATED => emitStateM c STATE.CONNECTED
  | AuthStatus.TOKEN_EXPIRED => disconnect (emitErrorM c ERROR.TOKEN_EXPIRED)
  | AuthStatus.BAD_NONCE => disconnect (emitErrorM c ERROR.BAD_NONCE)
  | AuthStatus.BAD_TOKEN => disconnect (emitErrorM c ERROR.BAD_TOKEN)
  | AuthStatus.UNKNOWN => disconnect (emitErrorM c ERROR.UNKNOWN)
  | AuthStatus.unrecognized _ => c

/-- A decoded `StreamMessage` body: the tagged union the codec produces, or
`otherBody` for an unrecognized tag (the `default` case of the `switch` in
`handleMessage`, which emits the protobuf error). -/
inductive Decoded where
  | authenticationResult (status : AuthStatus)
  | marketUpdate
  | pairUpdate
  | otherBody
  deriving DecidableEq

/-- `handleMessage` (dist/client.js lines 209-237).  The codec is an
external collaborator, passed as `decode`; `none` models a decode throw.
A single byte equal to 1 is the heartbeat and is discarded before any
decoding. -/
def handleMessage (c : Client) (decode : List ℕ → Option Decoded)
    (data : List ℕ) : Client :=
  if data.length = 1 ∧ data.head? = some 1 then c
  else
    match decode data with
    | none => emitErrorM c ERROR.PROTOBUF
    | some (Decoded.authenticationResult st) => authResultHandler c st
    | some Decoded.marketUpdate => { c with emitted := c.emitted ++ [Emit.marketUpdate] }
    | some Decoded.pairUpdate => { c with emitted := c.emitted ++ [Emit.pairUpdate] }
    | some Decoded.otherBody => emitErrorM c ERROR.PROTOBUF

/-- External inputs driving one client: the public API calls, the transport
events of the current connection, an expiring reconnect timer, and a decoded
authentication result arriving in a message. -/
inductive Input where
  | connectCall
  | disconnectCall
  | transportOpen
  | transportClose
  | transportError
  | timer
  | authMsg (status : AuthStatus)
  deriving DecidableEq

/-- One step of the client under an input. -/
def step (c : Client) : Input → Client
  | Input.connectCall => connect c
  | Input.disconnectCall => disconnect c
  | Input.transportOpen => onOpen c
  | Input.transportClose => onClose c
  | Input.transportError => onError c
  | Input.timer => timerFire c
  | Input.authMsg st => authResultHandler c st

/-- Run a trace of inputs from a client state. -/
def run (c : Client) (trace : List Input) : Client :=
  trace.foldl step c

/-- A freshly constructed client: state WAITING_TO_CONNECT, no timers, the
`reconnectDisabled` field unset (falsy). -/
def initClient (s : SessionOpts) : Client :=
  { session := s
    currentState := STATE.WAITING_TO_CONNECT
    reconnectDisabled := false
    pending := []
    emitted := [] }

/-- `sessionExample` with backoff disabled: used in concrete runs whose
point does not involve backoff growth. -/
def sessionNB : SessionOpts :=
  { url := "wss://sb.cryptowat.ch"
    apiKey := "key"
    secretKey := "secret"
    subscriptions := []
    reconnect := true
    backoff := false
    reconnectTimeout := 1
    maxReconnectTimeout := 30
    verbose := false }

/-- A run with backoff (base 1, max 30): one failed connection attempt grows
the delay to 2, then a connection succeeds and later closes. -/
def traceC2 : List Input :=
  [Input.connectCall, Input.transportError, Input.timer, Input.transportOpen,
    Input.authMsg AuthStatus.AUTHENTICATED, Input.transportClose]

/-- Claim C2, counterexample: in the run `traceC2` the machine reaches
CONNECTED while the delay has grown to 2, yet after the subsequent close
the reconnect wait is scheduled with delay 2, not with the base delay 1 —
reaching CONNECTED never resets the delay. -/
theorem C2_counterexample :
    sessionExample.reconnectTimeout = 1
    ∧ (run (initClient sessionExample) traceC2).emitted =
        [Emit.stateChange STATE.CONNECTING, Emit.clientError ERROR.CONNECTION_REFUSED,
          Emit.stateChange STATE.DISCONNECTED, Emit.stateChange STATE.WAITING_TO_RECONNECT,
          Emit.stateChange STATE.CONNECTING, Emit.stateChange STATE.AUTHENTICATING,
          Emit.stateChange STATE.CONNECTED, Emit.stateChange STATE.DISCONNECTED,
          Emit.stateChange STATE.WAITING_TO_RECONNECT]
    ∧ (run (initClient sessionExample) traceC2).session.reconnectTimeout = 2
    ∧ (run (initClient sessionExample) traceC2).pending = [2] := by
  refine ⟨rfl, ?_, ?_, ?_⟩ <;>
    norm_num [traceC2, run, step, connect, onError, onOpen, authenticate, onClose,
      timerFire, authResultHandler, Client.reconnect, emitStateM, emitErrorM,
      backoffStep, initClient, sessionExample]

/-- Claim C2, amended: handling a successful authentication result emits
CONNECTED but leaves the session — in particular the reconnect delay
state — and the timer queue unchanged; nothing resets the delay to the
base value, so the first reconnect wait after a successful connection uses
whatever value backoff had grown to. -/
theorem C2_no_reset_on_connected (c : Client) :
    (authResultHandler c AuthStatus.AUTHENTICATED).session = c.session
    ∧ (authResultHandler c AuthStatus.AUTHENTICATED).currentState = STATE.CONNECTED
    ∧ (authResultHandler c AuthStatus.AUTHENTICATED).pending = c.pending :=
  ⟨rfl, rfl, rfl⟩

/-- Claim C3, counterexample: after `disconnect()` a reconnect that was
already scheduled is *not* suppressed — its timer fires and runs
`connect()` (which even clears the flag) — and a transport error event
also schedules a reconnect despite the flag. -/
theorem C3_counterexample :
    ((run (initClient sessionNB)
        [Input.connectCall, Input.transportClose, Input.disconnectCall]).pending = [1]
      ∧ (run (initClient sessionNB)
          [Input.connectCall, Input.transportClose, Input.disconnectCall]).reconnectDisabled = true)
    ∧ ((run (initClient sessionNB)
        [Input.connectCall, Input.transportClose, Input.disconnectCall, Input.timer]).currentState
          = STATE.CONNECTING
      ∧ (run (initClient sessionNB)
          [Input.connectCall, Input.transportClose, Input.disconnectCall, Input.timer]).reconnectDisabled
          = false)
    ∧ ((run (initClient sessionNB)
        [Input.connectCall, Input.disconnectCall, Input.transportError]).pending = [1]
      ∧ (run (initClient sessionNB)
          [Input.connectCall, Input.disconnectCall, Input.transportError]).reconnectDisabled = true) := by
  decide

/-- Claim C3, amended: the reconnect-disabled flag set by `disconnect()`
suppresses scheduling on subsequent close events only; an error event
schedules a reconnect whenever the session reconnect option is set (the
flag is not consulted), an already-scheduled timer still fires and runs
`connect()` (clearing the flag), and repeated `disconnect()` calls are
idempotent on the client state. -/
theorem C3_partial_suppression :
    (∀ c : Client, c.reconnectDisabled = true → (onClose c).pending = c.pending)
    ∧ (∀ c : Client, c.session.reconnect = true →
        (onError c).pending = c.pending ++ [c.session.reconnectTimeout])
    ∧ (∀ (c : Client) (d : ℚ) (rest : List ℚ), c.pending = d :: rest →
        (timerFire c).currentState = STATE.CONNECTING
          ∧ (timerFire c).reconnectDisabled = false)
    ∧ (∀ c : Client, disconnect (disconnect c) = disconnect c) := by
  refine ⟨?_, ?_, ?_, ?_⟩
  · intro c h
    simp [onClose, emitStateM, Client.reconnect, h]
  · intro c h
    simp [onError, emitStateM, emitErrorM, Client.reconnect, h]
  · intro c d rest h
    simp [timerFire, h, connect, emitStateM]
  · intro c
    rfl

/-- A client with the reconnect-disabled flag set (as after `disconnect()`). -/
def cDisabled : Client := { initClient sessionNB with reconnectDisabled := true }

/-- A client with one reconnect timer scheduled. -/
def cPend : Client := { initClient sessionNB with pending := [1] }

/-- Concrete instance of `C3_partial_suppression`. -/
theorem C3_partial_suppression_witness :
    (cDisabled.reconnectDisabled = true ∧ (onClose cDisabled).pending = cDisabled.pending)
    ∧ ((initClient sessionNB).session.reconnect = true
      ∧ (onError (initClient sessionNB)).pending =
          (initClient sessionNB).pending ++ [(initClient sessionNB).session.reconnectTimeout])
    ∧ (cPend.pending = 1 :: [] ∧ (timerFire cPend).currentState = STATE.CONNECTING)
    ∧ disconnect (disconnect (initClient sessionNB)) = disconnect (initClient sessionNB) :=
  ⟨⟨rfl, C3_partial_suppression.1 cDisabled rfl⟩,
    ⟨rfl, C3_partial_suppression.2.1 (initClient sessionNB) rfl⟩,
    ⟨rfl, (C3_partial_suppression.2.2.1 cPend 1 [] rfl).1⟩,
    C3_partial_suppression.2.2.2 (initClient sessionNB)⟩

/-- Claim C4, counterexample: with the reconnect option enabled, a
BAD_TOKEN auth result emits the matching error and the machine reaches
DISCONNECTED after the transport closes, but *no* reconnect is scheduled:
the internal `disconnect()` call set the reconnect-disabled flag, and the
close handler therefore skips `reconnect()`. -/
theorem C4_counterexample :
    sessionNB.reconnect = true
    ∧ (run (initClient sessionNB)
        [Input.connectCall, Input.transportOpen, Input.authMsg AuthStatus.BAD_TOKEN,
          Input.transportClose]).emitted =
        [Emit.stateChange STATE.CONNECTING, Emit.stateChange STATE.AUTHENTICATING,
          Emit.clientError ERROR.BAD_TOKEN, Emit.stateChange STATE.DISCONNECTED]
    ∧ (run (initClient sessionNB)
        [Input.connectCall, Input.transportOpen, Input.authMsg AuthStatus.BAD_TOKEN,
          Input.transportClose]).currentState = STATE.DISCONNECTED
    ∧ (run (initClient sessionNB)
        [Input.connectCall, Input.transportOpen, Input.authMsg AuthStatus.BAD_TOKEN,
          Input.transportClose]).pending = [] := by
  decide

/-- The error notification each failing auth status produces. -/
def failureError : AuthStatus → Option ERROR
  | AuthStatus.TOKEN_EXPIRED => some ERROR.TOKEN_EXPIRED
  | AuthStatus.BAD_NONCE => some ERROR.BAD_NONCE
  | AuthStatus.BAD_TOKEN => some ERROR.BAD_TOKEN
  | AuthStatus.UNKNOWN => some ERROR.UNKNOWN
  | _ => none

/-- Claim C4, amended: each of the failure statuses BAD_NONCE, BAD_TOKEN,
TOKEN_EXPIRED, UNKNOWN emits its matching named error and sets the
reconnect-disabled flag (the handler calls `disconnect()`); the subsequent
transport close reaches DISCONNECTED and schedules no reconnect,
regardless of whether the session reconnect option is enabled. -/
theorem C4_no_retry (c : Client) (st : AuthStatus) (e : ERROR)
    (h : failureError st = some e) :
    (authResultHandler c st).emitted = c.emitted ++ [Emit.clientError e]
    ∧ (authResultHandler c st).reconnectDisabled = true
    ∧ (onClose (authResultHandler c st)).currentState = STATE.DISCONNECTED
    ∧ (onClose (authResultHandler c st)).pending = (authResultHandler c st).pending := by
  cases st <;> simp only [failureError, Option.some.injEq, reduceCtorEq] at h <;>
    subst h <;>
    simp [authResultHandler, disconnect, emitErrorM, emitStateM, onClose, Client.reconnect]

/-- Concrete instance of `C4_no_retry` at the BAD_TOKEN status. -/
theorem C4_no_retry_witness :
    failureError AuthStatus.BAD_TOKEN = some ERROR.BAD_TOKEN
    ∧ ((authResultHandler (initClient sessionNB) AuthStatus.BAD_TOKEN).emitted =
          (initClient sessionNB).emitted ++ [Emit.clientError ERROR.BAD_TOKEN]
      ∧ (authResultHandler (initClient sessionNB) AuthStatus.BAD_TOKEN).reconnectDisabled = true
      ∧ (onClose (authResultHandler (initClient sessionNB) AuthStatus.BAD_TOKEN)).currentState
          = STATE.DISCONNECTED
      ∧ (onClose (authResultHandler (initClient sessionNB) AuthStatus.BAD_TOKEN)).pending
          = (authResultHandler (initClient sessionNB) AuthStatus.BAD_TOKEN).pending) :=
  ⟨rfl, C4_no_retry (initClient sessionNB) AuthStatus.BAD_TOKEN ERROR.BAD_TOKEN rfl⟩

/-- An authenticating client (connected transport, handshake sent). -/
def cAuthing : Client :=
  run (initClient sessionNB) [Input.connectCall, Input.transportOpen]

/-- Claim C5, counterexample: a decoded auth status outside the recognized
enum values (here wire value 6) is silently ignored by the `default: break`
branch — no unknown-error notification, no disconnect, no change at all. -/
theorem C5_counterexample :
    authResultHandler cAuthing (AuthStatus.unrecognized 6) = cAuthing
    ∧ Emit.clientError ERROR.UNKNOWN ∉
        (authResultHandler cAuthing (AuthStatus.unrecognized 6)).emitted
    ∧ (authResultHandler cAuthing (AuthStatus.unrecognized 6)).reconnectDisabled = false := by
  decide

/-- Claim C5, amended: only the literal UNKNOWN enum status emits the
unknown error notification and disconnects; any status outside the
recognized enum values falls into the silent `default` branch and leaves
the client completely unchanged. -/
theorem C5_unknown_only_literal (c : Client) :
    ((authResultHandler c AuthStatus.UNKNOWN).emitted =
        c.emitted ++ [Emit.clientError ERROR.UNKNOWN]
      ∧ (authResultHandler c AuthStatus.UNKNOWN).reconnectDisabled = true)
    ∧ ∀ n : ℕ, authResultHandler c (AuthStatus.unrecognized n) = c :=
  ⟨⟨rfl, rfl⟩, fun _ => rfl⟩

/-- Claim C9: a one-byte payload with value 1 (the heartbeat marker) is
discarded before decoding, whatever the connection state and whatever the
codec would say: no decode-error notification, no data notification, no
state change. -/
theorem C9_heartbeat_silent (c : Client) (decode : List ℕ → Option Decoded) :
    handleMessage c decode [1] = c := by
  simp [handleMessage]

/-! ## The subscription multiplexer (src/public/channel.js)

Pair keys are opaque JS Map keys and channel options an opaque object
spread into each subscribe request, so both are type parameters.  Listener
callbacks are identified by numbers (`Option` because `setSocket` passes
`null` as the callback).  A sent message is recorded together with the
socket (connection) it was sent on. -/

/-- `EVENTS.SUBSCRIBE` from './utils'.  Modelled from the spec: the utils
module is not among the sources; §6 of the spec gives the subscribe wire
format with `event: "subscribe"`.  No claim depends on this value. -/
def EVENTS_SUBSCRIBE : String := "subscribe"

/-- A subscribe request: `{event, pair: batch, subscription: {name, ...options}}`. -/
structure SubscribeMessage (κ ω : Type) where
  event : String
  pair : List κ
  name : String
  options : ω
  deriving DecidableEq

/-- The state of a `Channel`: its current socket, name, options, the
listener map (a JS Map, i.e. an insertion-ordered association list), and
the log of messages sent so far, each tagged with the socket used. -/
structure Channel (κ ω : Type) where
  socket : ℕ
  channelName : String
  options : ω
  pairListeners : List (κ × List (Option ℕ))
  sent : List (ℕ × SubscribeMessage κ ω)
  deriving DecidableEq

/-- `new Channel(socket, channelName, options)`: empty listener map. -/
def mkChannel {ω : Type} (κ : Type) (socket : ℕ) (channelName : String)
    (options : ω) : Channel κ ω :=
  { socket := socket
    channelName := channelName
    options := options
    pairListeners := []
    sent := [] }

/-- The subscribe request for one batch. -/
def mkSubscribeMessage {κ ω : Type} (name : String) (options : ω)
    (batch : List κ) : SubscribeMessage κ ω :=
  { event := EVENTS_SUBSCRIBE
    pair := batch
    name := name
    options := options }

/-- `Map.has` / `Map.get` on the listener map. -/
def lookupPair {κ : Type} [DecidableEq κ] :
    List (κ × List (Option ℕ)) → κ → Option (List (Option ℕ))
  | [], _ => none
  | e :: es, p => if e.1 = p then some e.2 else lookupPair es p

/-- `this.pairListeners.get(pair).push(callback)`: append the callback to
the entry for `p`. -/
def pushListener {κ : Type} [DecidableEq κ] (m : List (κ × List (Option ℕ)))
    (p : κ) (cb : Option ℕ) : List (κ × List (Option ℕ)) :=
  m.map fun e => if e.1 = p then (e.1, e.2 ++ [cb]) else e

/-- The `while (pairsToSubscribe.length)` loop of `_subscribe`
(src/public/channel.js lines 11-24): splice off up to 100 keys and send
them as one subscribe request, until the list is empty.  The fuel argument
makes the recursion structural; `_subscribe` below supplies the list's
length, which bounds the number of iterations. -/
def subLoop {κ ω : Type} : ℕ → Channel κ ω → List κ → Channel κ ω
  | _, c, [] => c
  | 0, c, _ :: _ => c
  | fuel + 1, c, a :: as =>
      subLoop fuel
        { c with sent := c.sent ++
            [(c.socket, mkSubscribeMessage c.channelName c.options ((a :: as).take 100))] }
        ((a :: as).drop 100)

/-- `Channel._subscribe(pairsToSubscribe)`. -/
def Channel.subscribeBatches {κ ω : Type} (c : Channel κ ω)
    (pairsToSubscribe : List κ) : Channel κ ω :=
  subLoop pairsToSubscribe.length c pairsToSubscribe

/-- The successive `splice(0, 100)` batches of a list (same fuel device). -/
def chunksLoop {κ : Type} : ℕ → List κ → List (List κ)
  | _, [] => []
  | 0, _ :: _ => []
  | fuel + 1, a :: as => (a :: as).take 100 :: chunksLoop fuel ((a :: as).drop 100)

/-- The batches of at most 100 keys the loop sends, in order. -/
def chunks100 {κ : Type} (l : List κ) : List (List κ) :=
  chunksLoop l.length l

/-- `Channel.subscribe(pairs, callback, resubscribe)` (src/public/channel.js
lines 26-43): with `resubscribe` every key is pending; otherwise only keys
not yet in the listener map become pending (and get an empty listener
list), and the callback is appended to each key's listener list either
way. -/
def Channel.subscribe {κ ω : Type} [DecidableEq κ] (c : Channel κ ω)
    (pairs : List κ) (callback : Option ℕ) (resubscribe : Bool) : Channel κ ω :=
  if resubscribe then c.subscribeBatches pairs
  else
    let acc := pairs.foldl
      (fun acc p =>
        if (lookupPair acc.1.pairListeners p).isSome then
          ({ acc.1 with pairListeners := pushListener acc.1.pairListeners p callback },
            acc.2)
        else
          ({ acc.1 with pairListeners :=
              pushListener (acc.1.pairListeners ++ [(p, [])]) p callback },
            acc.2 ++ [p]))
      (c, ([] : List κ))
    acc.1.subscribeBatches acc.2

/-- `Channel.setSocket(socket)` (src/public/channel.js lines 45-49): replace
the connection reference, then resubscribe every registered key. -/
def Channel.setSocket {κ ω : Type} [DecidableEq κ] (c : Channel κ ω)
    (socket : ℕ) : Channel κ ω :=
  let c := { c with socket := socket }
  c.subscribe (c.pairListeners.map Prod.fst) none true

/-- `Channel.onMessageUpdate(message)` (src/public/channel.js lines 51-57):
take the last element of the update as the pair key; if it is registered,
every listener for it is invoked (with the normalized message — the
normalization, `normalizeMessage`, is subclass-provided and outside the
sources, so the model returns the list of invoked callbacks in invocation
order; an unregistered or absent key invokes nobody). -/
def Channel.onMessageUpdate {κ ω : Type} [DecidableEq κ] (c : Channel κ ω)
    (message : List κ) : List (Option ℕ) :=
  match message.getLast? with
  | none => []
  | some pair =>
    match lookupPair c.pairListeners pair with
    | none => []
    | some fns => fns

theorem chunksLoop_congr {κ : Type} :
    ∀ (n m : ℕ) (l : List κ), l.length ≤ n → l.length ≤ m →
      chunksLoop n l = chunksLoop m l := by
  intro n
  induction n with
  | zero =>
    intro m l hn _
    cases l with
    | nil => cases m <;> rfl
    | cons a as => simp at hn
  | succ n ih =>
    intro m l hn hm
    cases l with
    | nil => cases m <;> rfl
    | cons a as =>
      cases m with
      | zero => simp at hm
      | succ m =>
        simp only [chunksLoop]
        congr 1
        apply ih
        · simp only [List.length_drop, List.length_cons]
          simp only [List.length_cons] at hn
          omega
        · simp only [List.length_drop, List.length_cons]
          simp only [List.length_cons] at hm
          omega

theorem chunks100_cons {κ : Type} (a : κ) (as : List κ) :
    chunks100 (a :: as) = (a :: as).take 100 :: chunks100 ((a :: as).drop 100) := by
  show chunksLoop (as.length + 1) (a :: as) = _
  simp only [chunksLoop]
  congr 1
  apply chunksLoop_congr
  · simp only [List.length_drop, List.length_cons]; omega
  · exact le_rfl

theorem chunksLoop_flatten {κ : Type} :
    ∀ (n : ℕ) (l : List κ), l.length ≤ n → (chunksLoop n l).flatten = l := by
  intro n
  induction n with
  | zero =>
    intro l h
    cases l with
    | nil => rfl
    | cons a as => simp at h
  | succ n ih =>
    intro l h
    cases l with
    | nil => rfl
    | cons a as =>
      simp only [chunksLoop, List.flatten_cons]
      rw [ih]
      · exact List.take_append_drop 100 (a :: as)
      · simp only [List.length_drop, List.length_cons]
        simp only [List.length_cons] at h
        omega

theorem chunks100_flatten {κ : Type} (l : List κ) : (chunks100 l).flatten = l :=
  chunksLoop_flatten l.length l le_rfl

theorem chunksLoop_sizes {κ : Type} :
    ∀ (n : ℕ) (l : List κ),
      ((chunksLoop n l).all fun b => decide (b.length ≤ 100)) = true := by
  intro n
  induction n with
  | zero => intro l; cases l <;> rfl
  | succ n ih =>
    intro l
    cases l with
    | nil => rfl
    | cons a as =>
      simp only [chunksLoop, List.all_cons, Bool.and_eq_true]
      refine ⟨?_, ih _⟩
      simp only [List.length_take, decide_eq_true_eq]
      omega

theorem chunks100_sizes {κ : Type} (l : List κ) :
    ((chunks100 l).all fun b => decide (b.length ≤ 100)) = true :=
  chunksLoop_sizes l.length l

theorem subLoop_eq {κ ω : Type} :
    ∀ (n : ℕ) (c : Channel κ ω) (l : List κ), l.length ≤ n →
      subLoop n c l = { c with sent := (c.sent ++
          (chunks100 l).map
            (fun b => (c.socket, mkSubscribeMessage c.channelName c.options b))) } := by
  intro n
  induction n with
  | zero =>
    intro c l h
    cases l with
    | nil => simp [subLoop, chunks100, chunksLoop]
    | cons a as => simp at h
  | succ n ih =>
    intro c l h
    cases l with
    | nil => simp [subLoop, chunks100, chunksLoop]
    | cons a as =>
      rw [subLoop, ih _ _ (by
        simp only [List.length_drop, List.length_cons]
        simp only [List.length_cons] at h
        omega), chunks100_cons]
      simp [List.append_assoc]

theorem subscribeBatches_eq {κ ω : Type} (c : Channel κ ω) (l : List κ) :
    c.subscribeBatches l = { c with sent := (c.sent ++
        (chunks100 l).map
          (fun b => (c.socket, mkSubscribeMessage c.channelName c.options b))) } :=
  subLoop_eq l.length c l le_rfl

theorem lookupPair_none_push {κ : Type} [DecidableEq κ] (p : κ) (cb : Option ℕ) :
    ∀ m : List (κ × List (Option ℕ)), lookupPair m p = none →
      pushListener m p cb = m := by
  intro m
  induction m with
  | nil => intro _; rfl
  | cons e es ih =>
    intro h
    rw [lookupPair] at h
    by_cases he : e.1 = p
    · simp [he] at h
    · rw [if_neg he] at h
      simp only [pushListener, List.map_cons, if_neg he]
      have := ih h
      simp only [pushListener] at this
      rw [this]

theorem lookupPair_append_none {κ : Type} [DecidableEq κ] (p : κ)
    (m2 : List (κ × List (Option ℕ))) :
    ∀ m : List (κ × List (Option ℕ)), lookupPair m p = none →
      lookupPair (m ++ m2) p = lookupPair m2 p := by
  intro m
  induction m with
  | nil => intro _; rfl
  | cons e es ih =>
    intro h
    rw [lookupPair] at h
    by_cases he : e.1 = p
    · simp [he] at h
    · rw [List.cons_append, lookupPair, if_neg he]
      exact ih (by rwa [if_neg he] at h)

theorem pushListener_append {κ : Type} [DecidableEq κ]
    (m1 m2 : List (κ × List (Option ℕ))) (p : κ) (cb : Option ℕ) :
    pushListener (m1 ++ m2) p cb = pushListener m1 p cb ++ pushListener m2 p cb := by
  simp [pushListener]

/-- Claim C6: handing a channel a fresh connection via `setSocket` keeps the
listener registry intact and resends *all* registered keys — the batches
sent on the new socket concatenate back to the full key list — regardless
of what was sent before. -/
theorem C6_full_replay {κ ω : Type} [DecidableEq κ] (c : Channel κ ω) (socket : ℕ) :
    (c.setSocket socket).pairListeners = c.pairListeners
    ∧ (c.setSocket socket).sent = c.sent ++
        (chunks100 (c.pairListeners.map Prod.fst)).map
          (fun b => (socket, mkSubscribeMessage c.channelName c.options b))
    ∧ (chunks100 (c.pairListeners.map Prod.fst)).flatten = c.pairListeners.map Prod.fst := by
  refine ⟨?_, ?_, chunks100_flatten _⟩ <;>
    simp [Channel.setSocket, Channel.subscribe, subscribeBatches_eq]

/-- Claim C7: subscribing the same (previously unregistered) key twice with
two different listeners sends exactly one subscribe request for the key —
the first call sends it, the second sends nothing — while both listeners
end up registered and both fire, in registration order, on every update
whose last element is that key. -/
theorem C7_dedup_listeners {κ ω : Type} [DecidableEq κ] (c : Channel κ ω) (k : κ)
    (f g : ℕ) (h : lookupPair c.pairListeners k = none) :
    (c.subscribe [k] (some f) false).sent =
        c.sent ++ [(c.socket, mkSubscribeMessage c.channelName c.options [k])]
    ∧ ((c.subscribe [k] (some f) false).subscribe [k] (some g) false).sent =
        (c.subscribe [k] (some f) false).sent
    ∧ lookupPair
        ((c.subscribe [k] (some f) false).subscribe [k] (some g) false).pairListeners k
        = some [some f, some g]
    ∧ ∀ message : List κ, message.getLast? = some k →
        ((c.subscribe [k] (some f) false).subscribe [k] (some g) false).onMessageUpdate
          message = [some f, some g] := by
  have hpush1 : pushListener (c.pairListeners ++ [(k, [])]) k (some f) =
      c.pairListeners ++ [(k, [some f])] := by
    rw [pushListener_append, lookupPair_none_push k (some f) _ h]
    simp [pushListener]
  have h1 : c.subscribe [k] (some f) false =
      { c with pairListeners := c.pairListeners ++ [(k, [some f])],
               sent := c.sent ++ [(c.socket, mkSubscribeMessage c.channelName c.options [k])] } := by
    simp only [Channel.subscribe, Bool.false_eq_true, if_false, List.foldl_cons, List.foldl_nil,
      h, Option.isSome_none, hpush1]
    rw [subscribeBatches_eq]
    rfl
  have hlk1 : lookupPair (c.pairListeners ++ [(k, [some f])]) k = some [some f] := by
    rw [lookupPair_append_none k _ _ h]
    simp [lookupPair]
  have hpush2 : pushListener (c.pairListeners ++ [(k, [some f])]) k (some g) =
      c.pairListeners ++ [(k, [some f, some g])] := by
    rw [pushListener_append, lookupPair_none_push k (some g) _ h]
    simp [pushListener]
  have h2 : (c.subscribe [k] (some f) false).subscribe [k] (some g) false =
      { c with pairListeners := c.pairListeners ++ [(k, [some f, some g])],
               sent := c.sent ++ [(c.socket, mkSubscribeMessage c.channelName c.options [k])] } := by
    rw [h1]
    simp only [Channel.subscribe, Bool.false_eq_true, if_false, List.foldl_cons, List.foldl_nil,
      hlk1, Option.isSome_some, hpush2]
    rfl
  have hlk2 : lookupPair (c.pairListeners ++ [(k, [some f, some g])]) k
      = some [some f, some g] := by
    rw [lookupPair_append_none k _ _ h]
    simp [lookupPair]
  refine ⟨by rw [h1], by rw [h2, h1], by rw [h2]; exact hlk2, ?_⟩
  intro message hm
  rw [h2]
  simp only [Channel.onMessageUpdate, hm, hlk2]

/-- A fresh book channel over ℕ keys and trivial options. -/
def chFresh : Channel ℕ Unit := mkChannel ℕ 0 ("book") ()

/-- Concrete instance of `C7_dedup_listeners`: key 7, listeners 0 and 1,
update `[3, 7]`. -/
theorem C7_dedup_listeners_witness :
    lookupPair chFresh.pairListeners 7 = none
    ∧ (chFresh.subscribe [7] (some 0) false).sent =
        chFresh.sent ++ [(chFresh.socket, mkSubscribeMessage chFresh.channelName chFresh.options [7])]
    ∧ ((chFresh.subscribe [7] (some 0) false).subscribe [7] (some 1) false).sent =
        (chFresh.subscribe [7] (some 0) false).sent
    ∧ lookupPair
        ((chFresh.subscribe [7] (some 0) false).subscribe [7] (some 1) false).pairListeners 7
        = some [some 0, some 1]
    ∧ ((chFresh.subscribe [7] (some 0) false).subscribe [7] (some 1) false).onMessageUpdate
        [3, 7] = [some 0, some 1] := by
  have h := C7_dedup_listeners chFresh 7 0 1 rfl
  exact ⟨rfl, h.1, h.2.1, h.2.2.1, h.2.2.2 [3, 7] rfl⟩

set_option maxRecDepth 8000 in
/-- Claim C8: the loop sends the pending keys in batches of at most 100,
one request per batch, each carrying the channel name and the channel
options; and subscribing 250 distinct keys on a fresh channel produces
exactly 3 requests with pair lists of sizes 100, 100, 50, in that order. -/
theorem C8_batching :
    (∀ (κ ω : Type) (c : Channel κ ω) (l : List κ),
        (c.subscribeBatches l).sent = c.sent ++
            (chunks100 l).map
              (fun b => (c.socket, mkSubscribeMessage c.channelName c.options b))
          ∧ ((chunks100 l).all fun b => decide (b.length ≤ 100)) = true
          ∧ (chunks100 l).flatten = l)
    ∧ (chFresh.subscribe (List.range 250) (some 0) false).sent.map
        (fun m => m.2.pair.length) = [100, 100, 50] := by
  constructor
  · intro κ ω c l
    refine ⟨?_, chunks100_sizes l, chunks100_flatten l⟩
    rw [subscribeBatches_eq]
  · decide

end QuadKrkn
